import Mathlib

/-!
Shallow embedding of the voxelize server's physics core:
`src/server/world/physics/mod.rs` (the voxel rigid-body integrator and the
rapier adapter), `src/server/world/systems/physics.rs` (the per-tick physics
system, in particular its soft-repulsion pass) and
`src/server/world/config.rs` (`WorldConfigBuilder::build`).

Modelling conventions:
- `f32` values are modelled as `ℚ`.  Comparisons of a Euclidean length
  `v.len()` against a constant are modelled by comparing squares
  (`sqrtGtQ`), which is exact for real square roots.  Places where the
  *value* of a square root feeds further arithmetic (friction scaling,
  normalisation in the repulsion pass) are parameterised by an arbitrary
  square-root function `sq : ℚ → ℚ`; theorems quantify over it and
  concrete witnesses instantiate it with `sqrtWitness`.
- The helper modules `aabb.rs`, `rigidbody.rs`, `sweep.rs` and the crate
  utilities are not part of the given sources; the definitions taken from
  the spec instead of the source carry a doc comment starting with
  `Modelled from the spec:`.
- `sweep` in particular is kept abstract (`SweepFn`): every theorem about
  `iterate_body` holds for an arbitrary sweep implementation, and witnesses
  use `freeSweep`, the sweep of a world with no solid voxels.
- Rust panics are modelled as `Option.none` results.
-/

/-- Modelled from the spec: `approx_equals` from the crate utilities is not
under `src/`; it is the f32 comparison `(a - b).abs() < f32::EPSILON`.
`F32_EPSILON` is `f32::EPSILON = 2^(-23)`. -/
def F32_EPSILON : ℚ := 1 / 8388608

/-- Modelled from the spec: `approx_equals(a, b)` means `|a - b| < f32::EPSILON`. -/
def approx_equals (a b : ℚ) : Bool :=
  decide (|a - b| < F32_EPSILON)

/-- Exact model of the comparison `Real.sqrt s > c` for `s ≥ 0`:
true when `c` is negative, otherwise compare squares.  Used wherever the
source compares a vector length (`len()`, an f32 square root) with a
constant. -/
def sqrtGtQ (s c : ℚ) : Bool :=
  if c < 0 then true else decide (s > c ^ 2)

/-- A concrete square-root function used to instantiate witnesses; it is
exact on the perfect squares the witnesses evaluate it at (concrete
inputs are chosen so that every length that matters is 1 or 3). -/
def sqrtWitness (q : ℚ) : ℚ :=
  if q = 1 then 1 else if q = 9 then 3 else 0

/-- Vector of three rationals, the model of `Vec3<f32>` (module `vec.rs`,
not under `src/`; operations below are the ones the physics code calls,
with their documented meaning: componentwise add/scale,
`scale_and_add v w k = v + k • w`). -/
structure Vec3 where
  x : ℚ
  y : ℚ
  z : ℚ
deriving DecidableEq

def Vec3.zero : Vec3 := ⟨0, 0, 0⟩

def Vec3.add (v w : Vec3) : Vec3 := ⟨v.x + w.x, v.y + w.y, v.z + w.z⟩

def Vec3.scale (v : Vec3) (k : ℚ) : Vec3 := ⟨v.x * k, v.y * k, v.z * k⟩

def Vec3.scale_and_add (v w : Vec3) (k : ℚ) : Vec3 :=
  ⟨v.x + w.x * k, v.y + w.y * k, v.z + w.z * k⟩

/-- Squared Euclidean length; the source's `len()` is its square root. -/
def Vec3.magSq (v : Vec3) : ℚ := v.x ^ 2 + v.y ^ 2 + v.z ^ 2

/-- Index access, `v[0], v[1], v[2]` of the source. -/
def Vec3.get (v : Vec3) : Nat → ℚ
  | 0 => v.x
  | 1 => v.y
  | _ => v.z

/-- Index update, `v[i] = q` of the source. -/
def Vec3.set (v : Vec3) : Nat → ℚ → Vec3
  | 0, q => ⟨q, v.y, v.z⟩
  | 1, q => ⟨v.x, q, v.z⟩
  | _, q => ⟨v.x, v.y, q⟩

/-- Vector of three integers, the model of `Vec3<i32>` (per-axis resting
flags). -/
structure Vec3i where
  x : ℤ
  y : ℤ
  z : ℤ
deriving DecidableEq

def Vec3i.zero : Vec3i := ⟨0, 0, 0⟩

def Vec3i.get (v : Vec3i) : Nat → ℤ
  | 0 => v.x
  | 1 => v.y
  | _ => v.z

def Vec3i.set (v : Vec3i) : Nat → ℤ → Vec3i
  | 0, q => ⟨q, v.y, v.z⟩
  | 1, q => ⟨v.x, q, v.z⟩
  | _, q => ⟨v.x, v.y, q⟩

/-- Modelled from the spec: `aabb.rs` is not under `src/`.  An axis-aligned
box `{min_x, min_y, min_z, max_x, max_y, max_z}`; `width/height/depth` are
the per-axis extents. -/
structure AABB where
  min_x : ℚ
  min_y : ℚ
  min_z : ℚ
  max_x : ℚ
  max_y : ℚ
  max_z : ℚ
deriving DecidableEq

def AABB.width (a : AABB) : ℚ := a.max_x - a.min_x

def AABB.height (a : AABB) : ℚ := a.max_y - a.min_y

def AABB.depth (a : AABB) : ℚ := a.max_z - a.min_z

def AABB.translate (a : AABB) (d : Vec3) : AABB :=
  ⟨a.min_x + d.x, a.min_y + d.y, a.min_z + d.z,
   a.max_x + d.x, a.max_y + d.y, a.max_z + d.z⟩

/-- Modelled from the spec: the block definition record, reduced to the one
field the physics code reads through the registry, `is_fluid`. -/
structure Block where
  is_fluid : Bool
deriving DecidableEq

/-- Modelled from the spec: the registry supplies block definitions by id
(`registry.get_block_by_id`). -/
structure Registry where
  get_block_by_id : Nat → Block

/-- Modelled from the spec: the `VoxelAccess` capability, reduced to
`get_voxel(vx, vy, vz) -> id`, a total function (out-of-bounds reads
return air). -/
def GetVoxel : Type := ℤ → ℤ → ℤ → Nat

/-- `WorldConfig` from `src/server/world/config.rs`.  The `[f32; 3]`
gravity array is modelled as `Vec3`.  Note: the struct in `config.rs` has
no `collision_repulsion` field, although `systems/physics.rs` reads one;
the repulsion pass below therefore takes the repulsion strength as an
explicit parameter. -/
structure WorldConfig where
  max_clients : Nat
  interval : Nat
  chunk_size : Nat
  min_chunk : ℤ × ℤ
  max_chunk : ℤ × ℤ
  max_height : Nat
  max_light_level : Nat
  max_chunk_per_tick : Nat
  max_updates_per_tick : Nat
  max_response_per_tick : Nat
  preload_radius : Nat
  gravity : Vec3
  min_bounce_impulse : ℚ
  air_drag : ℚ
  fluid_drag : ℚ
  fluid_density : ℚ
  seed : ℤ
deriving DecidableEq

/-- `WorldConfigBuilder` from `src/server/world/config.rs`. -/
structure WorldConfigBuilder where
  max_clients : Nat
  interval : Nat
  chunk_size : Nat
  min_chunk : ℤ × ℤ
  max_chunk : ℤ × ℤ
  max_height : Nat
  max_light_level : Nat
  max_chunk_per_tick : Nat
  max_updates_per_tick : Nat
  max_response_per_tick : Nat
  preload_radius : Nat
  seed : ℤ
  gravity : Vec3
  min_bounce_impulse : ℚ
  air_drag : ℚ
  fluid_drag : ℚ
  fluid_density : ℚ
deriving DecidableEq

/-- `WorldConfigBuilder::new()` with the `DEFAULT_*` constants of
`config.rs` (`i32::MIN + 1 = -2147483647`, `i32::MAX - 1 = 2147483646`). -/
def WorldConfigBuilder.new : WorldConfigBuilder where
  max_clients := 100
  interval := 8
  chunk_size := 16
  min_chunk := (-2147483647, -2147483647)
  max_chunk := (2147483646, 2147483646)
  max_height := 256
  max_light_level := 15
  max_chunk_per_tick := 24
  max_updates_per_tick := 500
  max_response_per_tick := 3
  preload_radius := 8
  seed := 123123123
  gravity := ⟨0, -49/5, 0⟩
  min_bounce_impulse := 1/10
  air_drag := 1/10
  fluid_drag := 2/5
  fluid_density := 2

/-- `WorldConfigBuilder::build` from `config.rs`: the `panic!` on
nonsensical min/max chunks is modelled as `none`; otherwise the returned
`WorldConfig` copies the builder's fields. -/
def WorldConfigBuilder.build (b : WorldConfigBuilder) : Option WorldConfig :=
  if b.max_chunk.1 < b.min_chunk.1 ∨ b.max_chunk.2 < b.min_chunk.2 then
    none
  else
    some
      { max_clients := b.max_clients
        interval := b.interval
        chunk_size := b.chunk_size
        max_height := b.max_height
        max_light_level := b.max_light_level
        max_chunk_per_tick := b.max_chunk_per_tick
        max_updates_per_tick := b.max_updates_per_tick
        max_response_per_tick := b.max_response_per_tick
        preload_radius := b.preload_radius
        seed := b.seed
        min_chunk := b.min_chunk
        max_chunk := b.max_chunk
        air_drag := b.air_drag
        fluid_drag := b.fluid_drag
        fluid_density := b.fluid_density
        gravity := b.gravity
        min_bounce_impulse := b.min_bounce_impulse }

/-- Modelled from the spec: `rigidbody.rs` is not under `src/`.  A rigid
body's mutable state, with the fields the physics code reads and writes
(spec section 3, RigidBody). -/
structure RigidBody where
  aabb : AABB
  mass : ℚ
  velocity : Vec3
  forces : Vec3
  impulses : Vec3
  resting : Vec3i
  in_fluid : Bool
  ratio_in_fluid : ℚ
  friction : ℚ
  restitution : ℚ
  gravity_multiplier : ℚ
  air_drag : ℚ
  fluid_drag : ℚ
  auto_step : Bool
  stepped : Bool
  collision : Option Vec3
  sleep_frame_count : ℤ
deriving DecidableEq

/-- Modelled from the spec: `RigidBody::apply_force` adds to the forces
accumulator. -/
def RigidBody.apply_force (b : RigidBody) (v : Vec3) : RigidBody :=
  { b with forces := b.forces.add v }

/-- Modelled from the spec: `RigidBody::apply_impulse` adds to the
impulses accumulator. -/
def RigidBody.apply_impulse (b : RigidBody) (v : Vec3) : RigidBody :=
  { b with impulses := b.impulses.add v }

/-- Modelled from the spec: `RigidBody::mark_active` resets
`sleep_frame_count` to an implementation-chosen positive constant (spec
section 4.4 step 12); `10` is used here. -/
def RigidBody.mark_active (b : RigidBody) : RigidBody :=
  { b with sleep_frame_count := 10 }

/-- Modelled from the spec: `RigidBody::get_position`, the body's position
as the bottom-center of its AABB. -/
def RigidBody.get_position (b : RigidBody) : Vec3 :=
  ⟨(b.aabb.min_x + b.aabb.max_x) / 2, b.aabb.min_y, (b.aabb.min_z + b.aabb.max_z) / 2⟩

/-- The type of a sweep implementation (`sweep.rs` is not under `src/`;
spec section 4.2).  A sweep advances an AABB along a displacement through
the voxel terrain, invoking a stateful callback on each impact; the
callback receives its state, the cumulative time, the impact axis, the
impact direction and the remaining displacement, and returns the updated
state, the updated remaining displacement and a stop flag.  The final
arguments are the translate flag and `max_iters`.  All theorems about the
integrator quantify over an arbitrary `SweepFn`. -/
def SweepFn : Type 1 :=
  ∀ σ : Type, GetVoxel → Registry → AABB → Vec3 →
    (σ → ℚ → Nat → ℤ → Vec3 → σ × Vec3 × Bool) → σ → Bool → Nat → AABB × σ

/-- The sweep of a world with no solid voxels: no impacts ever occur, so
with `translate = true` the AABB moves by the whole displacement and the
callback state is returned unchanged.  Used to instantiate witnesses. -/
def freeSweep : SweepFn :=
  fun _ _ _ aabb dx _ s translate _ =>
    (if translate then aabb.translate dx else aabb, s)

/-- `no_gravity || approx_equals(body.gravity_multiplier, 0.0)` of
`Physics::iterate_body` (mod.rs lines 145-162): the world gravity
magnitude squared is computed with `powf(2.0)`. -/
def local_no_gravity (config : WorldConfig) (body : RigidBody) : Bool :=
  approx_equals 0 (config.gravity.x ^ 2 + config.gravity.y ^ 2 + config.gravity.z ^ 2) ||
    approx_equals body.gravity_multiplier 0

/-- `Physics::is_body_asleep` (mod.rs lines 274-318): a positive
`sleep_frame_count` means awake; with no effective gravity the body is
asleep; otherwise probe by sweeping the AABB along
`0.5 * dt^2 * gravity * gravity_multiplier` with `translate = false` - any
impact means resting, hence asleep. -/
def is_body_asleep (sw : SweepFn) (space : GetVoxel) (registry : Registry)
    (config : WorldConfig) (body : RigidBody) (dt : ℚ) (no_gravity : Bool) : Bool :=
  if body.sleep_frame_count > 0 then false
  else if no_gravity then true
  else
    let g_mult := 1/2 * dt * dt * body.gravity_multiplier
    let sleep_vec : Vec3 :=
      ⟨config.gravity.x * g_mult, config.gravity.y * g_mult, config.gravity.z * g_mult⟩
    (sw Bool space registry body.aabb sleep_vec
      (fun _ _ _ _ vec => (true, vec, true)) false false 10).2

/-- The upward fluid scan of `Physics::apply_fluid_forces` (mod.rs lines
345-352): starting at `cy = y0 + 1`, advance while `cy <= y1` and the
voxel is fluid; the returned value is the final `cy`, which equals
`y0 + submerged` (the source's `fluid_level`).  The fuel argument bounds
the loop; callers pass `(y1 - y0).toNat + 1`, which is at least the number
of iterations, so the fuel never runs out. -/
def fluid_scan (test : ℤ → Bool) (y1 : ℤ) : ℤ → Nat → ℤ
  | cy, 0 => cy
  | cy, fuel + 1 => if cy ≤ y1 ∧ test cy then fluid_scan test y1 (cy + 1) fuel else cy

/-- `Physics::apply_fluid_forces` (mod.rs lines 320-369), embedded exactly
as written: when the voxel at the floored AABB minimum is not fluid,
`in_fluid` and `ratio_in_fluid` are reset; when it is fluid, the code
computes the submerged ratio (clamped above at 1) and applies the buoyant
force `gravity * fluid_density * (volume * ratio)` - note that this branch
of the source never writes `in_fluid` or `ratio_in_fluid`. -/
def apply_fluid_forces (space : GetVoxel) (registry : Registry)
    (config : WorldConfig) (body : RigidBody) : RigidBody :=
  let cx : ℤ := ⌊body.aabb.min_x⌋
  let cz : ℤ := ⌊body.aabb.min_z⌋
  let y0 : ℤ := ⌊body.aabb.min_y⌋
  let y1 : ℤ := ⌊body.aabb.max_y⌋
  let test_fluid : ℤ → Bool := fun vy => (registry.get_block_by_id (space cx vy cz)).is_fluid
  if ¬ test_fluid y0 then
    { body with in_fluid := false, ratio_in_fluid := 0 }
  else
    let fluid_level := fluid_scan test_fluid y1 (y0 + 1) ((y1 - y0).toNat + 1)
    let height_in_fluid := (fluid_level : ℚ) - body.aabb.min_y
    let ratio0 := height_in_fluid / (body.aabb.max_y - body.aabb.min_y)
    let ratio1 := if ratio0 > 1 then 1 else ratio0
    let displaced := body.aabb.width * body.aabb.height * body.aabb.depth * ratio1
    body.apply_force (config.gravity.scale (config.fluid_density * displaced))

/-- `Physics::apply_friction_by_axis` (mod.rs lines 371-407).  `sq` models
the f32 square root computing `v_curr`, the lateral speed. -/
def apply_friction_by_axis (sq : ℚ → ℚ) (axis : Nat) (body : RigidBody)
    (dvel : Vec3) : RigidBody :=
  let rest_dir := body.resting.get axis
  let v_normal := dvel.get axis
  if rest_dir = 0 ∨ (rest_dir : ℚ) * v_normal ≤ 0 then body
  else
    let v_curr := sq (Vec3.magSq (body.velocity.set axis 0))
    if approx_equals v_curr 0 then body
    else
      let dv_max := |body.friction * v_normal|
      let scalar := if v_curr > dv_max then (v_curr - dv_max) / v_curr else 0
      let v1 := body.velocity.set ((axis + 1) % 3)
        (body.velocity.get ((axis + 1) % 3) * scalar)
      let v2 := v1.set ((axis + 2) % 3) (v1.get ((axis + 2) % 3) * scalar)
      { body with velocity := v2 }

/-- `Physics::process_collisions` (mod.rs lines 409-431): reset resting to
zero, then sweep the AABB along the displacement with the callback that
records `resting[axis] = dir`, zeroes the remaining displacement on that
axis and continues.  Returns the moved AABB and the new resting flags. -/
def process_collisions (sw : SweepFn) (space : GetVoxel) (registry : Registry)
    (aabb : AABB) (velocity : Vec3) : AABB × Vec3i :=
  sw Vec3i space registry aabb velocity
    (fun r _ axis dir vec => (r.set axis dir, vec.set axis 0, false))
    Vec3i.zero true 10

/-- `(dx[0] / dx[2]).abs() > cutoff` of `try_auto_stepping` with
`cutoff = 4`, modelled by cross-multiplication, which also reproduces the
IEEE corner cases of the f32 division (`dx.z = 0` gives an infinite ratio
unless `dx.x = 0`, which gives NaN, whose comparisons are false). -/
def ratioGtCutoff (dx : Vec3) : Bool :=
  decide (|dx.x| > 4 * |dx.z|)

/-- `(dx[0] / dx[2]).abs() < 1.0 / cutoff` of `try_auto_stepping`,
modelled by cross-multiplication (see `ratioGtCutoff`). -/
def ratioLtInvCutoff (dx : Vec3) : Bool :=
  decide (4 * |dx.x| < |dx.z|)

/-- The "sufficiently into obstruction" gate of `Physics::try_auto_stepping`
(mod.rs lines 446-456): `false` means the step attempt is aborted.  Aborts
when neither x nor z was blocked, or when
`!x_blocked && ratio > cutoff || !z_blocked && ratio < 1/cutoff`. -/
def auto_step_gate (resting : Vec3i) (dx : Vec3) : Bool :=
  let x_blocked := resting.x ≠ 0
  let z_blocked := resting.z ≠ 0
  if ¬ (x_blocked ∨ z_blocked) then false
  else if (¬ x_blocked ∧ ratioGtCutoff dx = true) ∨ (¬ z_blocked ∧ ratioLtInvCutoff dx = true) then false
  else true

/-- `Physics::try_auto_stepping` (mod.rs lines 433-529), embedded as
written: the early outs (in the air; obstruction gate), the x/z sweep on
`body.aabb`, the upward sweep by `floor(y + 1.001) - y`, the leftover
horizontal sweep, the bail-out comparisons against the cached `old_aabb`,
and on success `body.aabb := old_aabb` with resting x/z taken from the
leftover sweep and `stepped := true`. -/
def try_auto_stepping (sw : SweepFn) (space : GetVoxel) (registry : Registry)
    (body : RigidBody) (old_aabb : AABB) (dx : Vec3) : RigidBody :=
  if body.resting.y ≥ 0 ∧ ¬ body.in_fluid then body
  else if auto_step_gate body.resting dx = false then body
  else
    let x_blocked := body.resting.x ≠ 0
    let z_blocked := body.resting.z ≠ 0
    let target_x := old_aabb.min_x + dx.x
    let target_z := old_aabb.min_z + dx.z
    let r1 := sw Unit space registry body.aabb dx
      (fun _ _ axis _ vec =>
        if axis = 1 then ((), vec.set 1 0, false) else ((), vec, true))
      () true 10
    let aabb1 := r1.1
    let y_dist := (⌊aabb1.min_y + 1001/1000⌋ : ℚ) - aabb1.min_y
    let r2 := sw Bool space registry aabb1 ⟨0, y_dist, 0⟩
      (fun _ _ _ _ vec => (true, vec, true)) false true 10
    let body := { body with aabb := r2.1 }
    if r2.2 then body
    else
      let leftover : Vec3 := ⟨target_x - old_aabb.min_x, 0, target_z - old_aabb.min_z⟩
      let pr := process_collisions sw space registry body.aabb leftover
      let body := { body with aabb := pr.1 }
      if x_blocked ∧ approx_equals old_aabb.min_x target_x = false then body
      else if z_blocked ∧ approx_equals old_aabb.min_z target_z = false then body
      else
        { body with
            aabb := old_aabb
            resting := ⟨pr.2.x, body.resting.y, pr.2.z⟩
            stepped := true }

/-- The per-axis impact vector of the contact-impulse step (mod.rs lines
240-249): on each axis with a contact this frame that was not present last
frame, the impact is the negated velocity component. -/
def impactsOf (old_resting : Vec3i) (body : RigidBody) : Vec3 :=
  ⟨if body.resting.x ≠ 0 ∧ old_resting.x = 0 then -body.velocity.x else 0,
   if body.resting.y ≠ 0 ∧ old_resting.y = 0 then -body.velocity.y else 0,
   if body.resting.z ≠ 0 ∧ old_resting.z = 0 then -body.velocity.z else 0⟩

/-- The velocity after the contact-impulse loop (mod.rs lines 240-249):
every axis with a nonzero resting flag has its velocity zeroed. -/
def velocityAfterContacts (body : RigidBody) : Vec3 :=
  ⟨if body.resting.x ≠ 0 then 0 else body.velocity.x,
   if body.resting.y ≠ 0 then 0 else body.velocity.y,
   if body.resting.z ≠ 0 then 0 else body.velocity.z⟩

/-- The contact-impulse and bounce step of `Physics::iterate_body`
(mod.rs lines 237-265).  `mag` is the length of the impact vector
*before* it is scaled by the mass; both threshold comparisons
(`mag > 0.001` and `mag > config.min_bounce_impulse`) use it. -/
def resolve_impacts (config : WorldConfig) (old_resting : Vec3i)
    (body : RigidBody) : RigidBody :=
  let impacts := impactsOf old_resting body
  let body1 := { body with velocity := velocityAfterContacts body }
  if sqrtGtQ impacts.magSq (1/1000) then
    let j := impacts.scale body1.mass
    let body2 := { body1 with collision := some j }
    if body2.restitution > 0 ∧ sqrtGtQ impacts.magSq config.min_bounce_impulse = true then
      body2.apply_impulse (j.scale body2.restitution)
    else body2
  else body1

/-- The velocity-integration block of `Physics::iterate_body` (mod.rs
lines 175-212): acceleration from forces and gravity, velocity update from
impulses and acceleration, per-axis friction (only when friction is not
approximately zero), then air/fluid drag. -/
def integrate_velocity (sq : ℚ → ℚ) (config : WorldConfig) (body : RigidBody)
    (dt : ℚ) : RigidBody :=
  let a := (body.forces.scale (1 / body.mass)).scale_and_add config.gravity
    body.gravity_multiplier
  let dv := (body.impulses.scale (1 / body.mass)).scale_and_add a dt
  let body := { body with velocity := body.velocity.add dv }
  let body :=
    if approx_equals body.friction 0 then body
    else
      apply_friction_by_axis sq 2
        (apply_friction_by_axis sq 1 (apply_friction_by_axis sq 0 body dv) dv) dv
  let drag0 := if body.air_drag ≥ 0 then body.air_drag else config.air_drag
  let drag :=
    if body.in_fluid then
      (if body.fluid_drag ≥ 0 then body.fluid_drag else config.fluid_drag) *
        (1 - (1 - body.ratio_in_fluid) ^ 2)
    else drag0
  let mult := max (1 - drag * dt / body.mass) 0
  { body with velocity := body.velocity.scale mult }

/-- The tail of the awake path of `Physics::iterate_body` (mod.rs lines
221-272), starting right after forces and impulses are cleared: cache the
pre-collision AABB, run the collision sweep, optionally auto-step, apply
the contact impulses, and finally the reactivation check
(`velocity.len().powi(2) > 1e-5`). -/
def collide_and_impact (sw : SweepFn) (sq : ℚ → ℚ) (space : GetVoxel)
    (registry : Registry) (config : WorldConfig) (old_resting : Vec3i)
    (body : RigidBody) (dx : Vec3) : RigidBody :=
  let tmp_box := body.aabb
  let pr := process_collisions sw space registry body.aabb dx
  let body := { body with aabb := pr.1, resting := pr.2 }
  let body :=
    if body.auto_step then try_auto_stepping sw space registry body tmp_box dx else body
  let body := resolve_impacts config old_resting body
  if (sq body.velocity.magSq) ^ 2 > 1/100000 then body.mark_active else body

/-- The awake path of `Physics::iterate_body` (mod.rs lines 168-272):
decrement the sleep counter, snapshot resting, fluid forces, velocity
integration, displacement, clearing of forces and impulses, then the
collision/impulse tail `collide_and_impact`. -/
def iterate_awake (sw : SweepFn) (sq : ℚ → ℚ) (space : GetVoxel)
    (registry : Registry) (config : WorldConfig) (body : RigidBody) (dt : ℚ) : RigidBody :=
  let body := { body with sleep_frame_count := body.sleep_frame_count - 1 }
  let old_resting := body.resting
  let body := apply_fluid_forces space registry config body
  let body := integrate_velocity sq config body dt
  let dx := body.velocity.scale dt
  let body := { body with forces := Vec3.zero, impulses := Vec3.zero }
  collide_and_impact sw sq space registry config old_resting body dx

/-- `Physics::iterate_body` (mod.rs lines 134-272): the dt early out, the
collision/stepped flag reset, the static-body early out, the sleep check,
and otherwise the awake path. -/
def iterate_body (sw : SweepFn) (sq : ℚ → ℚ) (space : GetVoxel)
    (registry : Registry) (config : WorldConfig) (body : RigidBody) (dt : ℚ) : RigidBody :=
  if approx_equals dt 0 then body
  else
    let body := { body with collision := none, stepped := false }
    if body.mass ≤ 0 then
      { body with velocity := Vec3.zero, forces := Vec3.zero, impulses := Vec3.zero }
    else if is_body_asleep sw space registry config body dt (local_no_gravity config body) then
      body
    else iterate_awake sw sq space registry config body dt

/-- The state of the external rapier engine that `Physics::new` (mod.rs
lines 40-60) configures; only the world gravity passed to every
`pipeline.step` is modelled, the remaining fields are opaque state of the
external engine (out of scope per the spec). -/
structure PhysicsEngine where
  gravity : Vec3
deriving DecidableEq

/-- `Physics::new` (mod.rs line 58): the engine is created with gravity
`vector![0.0, 0.0, 0.0]`. -/
def PhysicsEngine.new : PhysicsEngine := ⟨⟨0, 0, 0⟩⟩

/-- The rapier rigid-body description built by `Physics::register`
(mod.rs lines 93-98): a dynamic body with the voxel body's mass as
additional mass, translated to the body's position, with
`gravity_scale(0.0)` and `lock_rotations()`. -/
structure RapierBodyDesc where
  additional_mass : ℚ
  translation : Vec3
  gravity_scale : ℚ
  rotations_locked : Bool
deriving DecidableEq

/-- The y-axis capsule collider built by `Physics::register` (mod.rs lines
99-105), with collision events enabled. -/
structure CapsuleColliderDesc where
  half_height : ℚ
  radius : ℚ
  collision_events : Bool
deriving DecidableEq

/-- `Physics::register` (mod.rs lines 90-113) as the pure descriptor pair
it inserts into the external engine. -/
def register_body_desc (body : RigidBody) : RapierBodyDesc × CapsuleColliderDesc :=
  ({ additional_mass := body.mass
     translation := body.get_position
     gravity_scale := 0
     rotations_locked := true },
   { half_height := body.aabb.height / 2
     radius := min (body.aabb.width / 2) (body.aabb.depth / 2)
     collision_events := true })

/-- The per-entity impulse computed by the soft-repulsion pass of
`PhysicsSystem::run` (systems/physics.rs lines 142-175): the delta from
the voxel body's position to the external body's post-step translation,
per-axis dead-banded at 0.001, normalised by its length (`sq` models the
f32 square root); when the computation returns early (`len <= 0.0001`) no
impulse is applied (`none`).  When both horizontal normalised components
are below 0.001 they are replaced by random jitter
`fastrand::i32(-10..10) / 1000`; the two drawn integers are the `jx jz`
parameters.  Each axis of the impulse is `(d * repulsion).min(3.0)`. -/
def repulsion_impulse (sq : ℚ → ℚ) (repulsion : ℚ) (after pos : Vec3)
    (jx jz : ℤ) : Option Vec3 :=
  let dx0 := after.x - pos.x
  let dy0 := after.y - pos.y
  let dz0 := after.z - pos.z
  let dx1 := if |dx0| < 1/1000 then 0 else dx0
  let dy1 := if |dy0| < 1/1000 then 0 else dy0
  let dz1 := if |dz0| < 1/1000 then 0 else dz0
  let len := sq (dx1 * dx1 + dy1 * dy1 + dz1 * dz1)
  if len ≤ 1/10000 then none
  else
    let dxn := dx1 / len
    let dyn := dy1 / len
    let dzn := dz1 / len
    let jitter := |dxn| < 1/1000 ∧ |dzn| < 1/1000
    let dxn := if jitter then (jx : ℚ) / 1000 else dxn
    let dzn := if jitter then (jz : ℚ) / 1000 else dzn
    some ⟨min (dxn * repulsion) 3, min (dyn * repulsion) 3, min (dzn * repulsion) 3⟩

/-- One entity's view of the repulsion pass of `PhysicsSystem::run`: which
components it has (the pass joins current-chunk, body and interactor
storages, with no client-flag filter), whether its current chunk is ready,
its voxel body, the external body's post-step translation, and the two
random integers drawn for the jitter. -/
structure RepulsionEntity where
  is_client : Bool
  has_current_chunk : Bool
  chunk_ready : Bool
  has_body : Bool
  has_interactor : Bool
  body : RigidBody
  rapier_after : Vec3
  jx : ℤ
  jz : ℤ

/-- The effect of the soft-repulsion pass of `PhysicsSystem::run`
(systems/physics.rs lines 131-177) on one entity's body: nothing happens
when `collision_repulsion <= f32::EPSILON`, when the entity lacks one of
the three joined components, or when its chunk is not ready; otherwise the
computed impulse, if any, is applied to the body. -/
def repulsion_pass_body (sq : ℚ → ℚ) (collision_repulsion : ℚ)
    (e : RepulsionEntity) : RigidBody :=
  if collision_repulsion ≤ F32_EPSILON then e.body
  else if ¬ (e.has_current_chunk ∧ e.has_body ∧ e.has_interactor) then e.body
  else if ¬ e.chunk_ready then e.body
  else
    match repulsion_impulse sq collision_repulsion e.rapier_after
      e.body.get_position e.jx e.jz with
    | none => e.body
    | some j => e.body.apply_impulse j

/-- A world with no voxels other than air. -/
def emptySpace : GetVoxel := fun _ _ _ => 0

/-- A registry in which no block is fluid. -/
def airRegistry : Registry := ⟨fun _ => ⟨false⟩⟩

/-- A registry in which block id 1 is fluid and everything else is not. -/
def waterRegistry : Registry := ⟨fun id => ⟨decide (id = 1)⟩⟩

/-- The world configuration with the source's default values (gravity
`(0, -9.8, 0)`, `min_bounce_impulse = 0.1`, `air_drag = 0.1`,
`fluid_drag = 0.4`, `fluid_density = 2`). -/
def stdConfig : WorldConfig where
  max_clients := 100
  interval := 8
  chunk_size := 16
  min_chunk := (-2147483647, -2147483647)
  max_chunk := (2147483646, 2147483646)
  max_height := 256
  max_light_level := 15
  max_chunk_per_tick := 24
  max_updates_per_tick := 500
  max_response_per_tick := 3
  preload_radius := 8
  seed := 123123123
  gravity := ⟨0, -49/5, 0⟩
  min_bounce_impulse := 1/10
  air_drag := 1/10
  fluid_drag := 2/5
  fluid_density := 2

/-- A unit-cube dynamic body at the origin with default-like settings:
mass 1, at rest, awake, no friction or restitution, negative drag
sentinels (use the world defaults), no auto-step. -/
def baseBody : RigidBody where
  aabb := ⟨0, 0, 0, 1, 1, 1⟩
  mass := 1
  velocity := Vec3.zero
  forces := Vec3.zero
  impulses := Vec3.zero
  resting := Vec3i.zero
  in_fluid := false
  ratio_in_fluid := 0
  friction := 0
  restitution := 0
  gravity_multiplier := 1
  air_drag := -1
  fluid_drag := -1
  auto_step := false
  stepped := false
  collision := none
  sleep_frame_count := 10

theorem try_auto_stepping_preserves_forces (sw : SweepFn) (s : GetVoxel)
    (r : Registry) (b : RigidBody) (old : AABB) (dx : Vec3) :
    (try_auto_stepping sw s r b old dx).forces = b.forces := by
  unfold try_auto_stepping
  simp only []
  repeat' split
  all_goals rfl

theorem try_auto_stepping_preserves_impulses (sw : SweepFn) (s : GetVoxel)
    (r : Registry) (b : RigidBody) (old : AABB) (dx : Vec3) :
    (try_auto_stepping sw s r b old dx).impulses = b.impulses := by
  unfold try_auto_stepping
  simp only []
  repeat' split
  all_goals rfl

theorem try_auto_stepping_preserves_restitution (sw : SweepFn) (s : GetVoxel)
    (r : Registry) (b : RigidBody) (old : AABB) (dx : Vec3) :
    (try_auto_stepping sw s r b old dx).restitution = b.restitution := by
  unfold try_auto_stepping
  simp only []
  repeat' split
  all_goals rfl

theorem resolve_impacts_preserves_forces (c : WorldConfig) (o : Vec3i)
    (b : RigidBody) : (resolve_impacts c o b).forces = b.forces := by
  unfold resolve_impacts
  simp only []
  repeat' split
  all_goals rfl

theorem resolve_impacts_preserves_impulses (c : WorldConfig) (o : Vec3i)
    (b : RigidBody) (h : b.restitution ≤ 0) :
    (resolve_impacts c o b).impulses = b.impulses := by
  unfold resolve_impacts
  simp only []
  split
  · split
    · rename_i h2
      exact absurd h2.1 (not_lt.mpr h)
    · rfl
  · rfl

theorem apply_friction_by_axis_preserves_restitution (sq : ℚ → ℚ) (a : Nat)
    (b : RigidBody) (dv : Vec3) :
    (apply_friction_by_axis sq a b dv).restitution = b.restitution := by
  unfold apply_friction_by_axis
  simp only []
  repeat' split
  all_goals rfl

theorem integrate_velocity_preserves_restitution (sq : ℚ → ℚ) (c : WorldConfig)
    (b : RigidBody) (dt : ℚ) :
    (integrate_velocity sq c b dt).restitution = b.restitution := by
  unfold integrate_velocity
  simp only []
  split
  · rfl
  · simp [apply_friction_by_axis_preserves_restitution]

theorem apply_fluid_forces_preserves_restitution (s : GetVoxel) (r : Registry)
    (c : WorldConfig) (b : RigidBody) :
    (apply_fluid_forces s r c b).restitution = b.restitution := by
  unfold apply_fluid_forces
  simp only []
  split <;> rfl

theorem collide_and_impact_preserves_accumulators (sw : SweepFn) (sq : ℚ → ℚ)
    (s : GetVoxel) (r : Registry) (c : WorldConfig) (o : Vec3i) (b : RigidBody)
    (dx : Vec3) (h : b.restitution ≤ 0) :
    (collide_and_impact sw sq s r c o b dx).forces = b.forces ∧
    (collide_and_impact sw sq s r c o b dx).impulses = b.impulses := by
  unfold collide_and_impact
  simp only []
  have hforces : ∀ b5 : RigidBody, b5.forces = b.forces →
      (if (sq (resolve_impacts c o b5).velocity.magSq) ^ 2 > 1/100000
        then (resolve_impacts c o b5).mark_active else resolve_impacts c o b5).forces
          = b.forces := by
    intro b5 h5
    split <;> simp [RigidBody.mark_active, resolve_impacts_preserves_forces, h5]
  have himp : ∀ b5 : RigidBody, b5.impulses = b.impulses → b5.restitution = b.restitution →
      (if (sq (resolve_impacts c o b5).velocity.magSq) ^ 2 > 1/100000
        then (resolve_impacts c o b5).mark_active else resolve_impacts c o b5).impulses
          = b.impulses := by
    intro b5 h5 h5r
    have hkeep : (resolve_impacts c o b5).impulses = b.impulses := by
      rw [resolve_impacts_preserves_impulses c o b5 (h5r ▸ h), h5]
    split <;> simp [RigidBody.mark_active, hkeep]
  constructor
  · split
    · exact hforces _ (by rw [try_auto_stepping_preserves_forces])
    · exact hforces _ rfl
  · split
    · exact himp _ (by rw [try_auto_stepping_preserves_impulses])
        (by rw [try_auto_stepping_preserves_restitution])
    · exact himp _ rfl rfl

theorem iterate_awake_clears_accumulators (sw : SweepFn) (sq : ℚ → ℚ)
    (space : GetVoxel) (registry : Registry) (config : WorldConfig)
    (b : RigidBody) (dt : ℚ) (h : b.restitution ≤ 0) :
    (iterate_awake sw sq space registry config b dt).forces = Vec3.zero ∧
    (iterate_awake sw sq space registry config b dt).impulses = Vec3.zero := by
  unfold iterate_awake
  simp only []
  constructor
  · exact ((collide_and_impact_preserves_accumulators _ _ _ _ _ _ _ _
      (by simpa [integrate_velocity_preserves_restitution,
        apply_fluid_forces_preserves_restitution] using h)).1).trans rfl
  · exact ((collide_and_impact_preserves_accumulators _ _ _ _ _ _ _ _
      (by simpa [integrate_velocity_preserves_restitution,
        apply_fluid_forces_preserves_restitution] using h)).2).trans rfl

/-- C1 counterexample: a call to `iterate_body` with `dt = 0` returns
before the accumulators are cleared, so a body carrying a nonzero forces
accumulator still carries it on return - the claim that forces and
impulses are zero after every call is false. -/
theorem c1_counterexample_dt_zero_keeps_forces :
    (iterate_body freeSweep sqrtWitness emptySpace airRegistry stdConfig
      { baseBody with forces := ⟨1, 0, 0⟩ } 0).forces ≠ Vec3.zero := by
  have hrun : iterate_body freeSweep sqrtWitness emptySpace airRegistry stdConfig
      { baseBody with forces := ⟨1, 0, 0⟩ } 0
        = { baseBody with forces := ⟨1, 0, 0⟩ } := by
    norm_num [iterate_body, approx_equals, F32_EPSILON]
  rw [hrun]
  norm_num [Vec3.zero, Vec3.mk.injEq]

/-- C1 (amended): for any sweep implementation, whenever `iterate_body`
does not take the `dt ≈ 0` early out, the body is not judged asleep, and
no bounce impulse can be applied (`restitution ≤ 0`), the forces and
impulses accumulators are both zero on return (the `mass ≤ 0` branch also
zeroes them).  The early outs (`dt ≈ 0`, asleep) return with the
accumulators untouched, and a bounce re-adds `J * restitution` to the
impulses, which is what falsifies the claim as stated. -/
theorem c1_forces_impulses_cleared_when_awake (sw : SweepFn) (sq : ℚ → ℚ)
    (space : GetVoxel) (registry : Registry) (config : WorldConfig)
    (b : RigidBody) (dt : ℚ)
    (hdt : approx_equals dt 0 = false)
    (hawake : is_body_asleep sw space registry config b dt
      (local_no_gravity config b) = false)
    (hrest : b.restitution ≤ 0) :
    (iterate_body sw sq space registry config b dt).forces = Vec3.zero ∧
    (iterate_body sw sq space registry config b dt).impulses = Vec3.zero := by
  unfold iterate_body
  rw [hdt]
  simp only [Bool.false_eq_true, if_false]
  by_cases hm : b.mass ≤ 0
  · rw [if_pos (show ({ b with collision := none, stepped := false } : RigidBody).mass ≤ 0
      from hm)]
    exact ⟨rfl, rfl⟩
  · rw [if_neg (show ¬({ b with collision := none, stepped := false } : RigidBody).mass ≤ 0
      from hm)]
    rw [if_neg (show ¬(is_body_asleep sw space registry config
      { b with collision := none, stepped := false } dt
      (local_no_gravity config { b with collision := none, stepped := false }) = true) from by
        intro hc
        exact absurd ((show is_body_asleep sw space registry config b dt
          (local_no_gravity config b) = true from hc).symm.trans hawake) (by simp))]
    exact iterate_awake_clears_accumulators sw sq space registry config _ dt hrest

/-- C1 witness: a free-falling unit-mass body with `dt = 0.1` in an empty
world exits one awake `iterate_body` call with both accumulators zero. -/
theorem c1_witness_free_fall_clears :
    approx_equals (1/10) 0 = false ∧
    is_body_asleep freeSweep emptySpace airRegistry stdConfig baseBody (1/10)
      (local_no_gravity stdConfig baseBody) = false ∧
    baseBody.restitution ≤ 0 ∧
    (iterate_body freeSweep sqrtWitness emptySpace airRegistry stdConfig
      baseBody (1/10)).forces = Vec3.zero ∧
    (iterate_body freeSweep sqrtWitness emptySpace airRegistry stdConfig
      baseBody (1/10)).impulses = Vec3.zero := by
  have h1 : approx_equals (1/10) 0 = false := by
    norm_num [approx_equals, F32_EPSILON, abs_of_nonneg]
  have h2 : is_body_asleep freeSweep emptySpace airRegistry stdConfig baseBody (1/10)
      (local_no_gravity stdConfig baseBody) = false := by
    norm_num [is_body_asleep, baseBody]
  have h3 : baseBody.restitution ≤ 0 := by norm_num [baseBody]
  exact ⟨h1, h2, h3,
    (c1_forces_impulses_cleared_when_awake freeSweep sqrtWitness emptySpace airRegistry
      stdConfig baseBody (1/10) h1 h2 h3).1,
    (c1_forces_impulses_cleared_when_awake freeSweep sqrtWitness emptySpace airRegistry
      stdConfig baseBody (1/10) h1 h2 h3).2⟩

/-- A voxel world whose column is fluid (block id 1) at heights up to 1
and air above. -/
def c2_fluid_space : GetVoxel := fun _ vy _ => if vy ≤ 1 then 1 else 0

/-- A unit cube at the origin, fully inside the fluid column, entering the
fluid step with `in_fluid = false` and a stale `ratio_in_fluid = 1/2`. -/
def c2_fluid_body : RigidBody := { baseBody with ratio_in_fluid := 1/2 }

/-- C2 (code bug): for a body whose bottom AABB voxel is fluid, the fluid
branch of `apply_fluid_forces` applies the buoyant force
`gravity * fluid_density * (volume * ratio)` (here ratio clamps to 1 and
the force is `(0, -19.6, 0)`), but never writes `in_fluid := true` nor
`ratio_in_fluid`: the flags keep their stale values, contradicting the
claim (and leaving the fluid-drag path of `iterate_body`, which reads
`in_fluid`, unreachable, while the non-fluid branch dutifully resets both
fields - clearly a slip). -/
theorem c2_fluid_branch_leaves_flags_unset :
    (waterRegistry.get_block_by_id (c2_fluid_space 0 0 0)).is_fluid = true ∧
    (apply_fluid_forces c2_fluid_space waterRegistry stdConfig c2_fluid_body).in_fluid
      = false ∧
    (apply_fluid_forces c2_fluid_space waterRegistry stdConfig c2_fluid_body).ratio_in_fluid
      = 1/2 ∧
    (apply_fluid_forces c2_fluid_space waterRegistry stdConfig c2_fluid_body).forces
      = ⟨0, -98/5, 0⟩ := by
  norm_num [apply_fluid_forces, fluid_scan, waterRegistry, stdConfig, c2_fluid_space,
    c2_fluid_body, baseBody, RigidBody.apply_force, Vec3.add, Vec3.scale, Vec3.zero,
    AABB.width, AABB.height, AABB.depth]

/-- A body for the C3 counterexample: mass 2, a new x contact this frame,
and an incoming x velocity of magnitude `0.0008`, so the impact vector has
length `0.0008` while the impulse `J = mass * impact` has length
`0.0016 > 0.001`. -/
def c3_counter_body : RigidBody :=
  { baseBody with mass := 2, velocity := ⟨-(1/1250), 0, 0⟩, resting := ⟨1, 0, 0⟩ }

/-- C3 counterexample: the source compares the impact magnitude *before*
scaling by the mass against `0.001`, not `|J|`; with mass 2 and
`|impact| = 0.0008` no collision is recorded even though
`|J| = 0.0016 > 0.001` (stated on squares, exact for the real lengths). -/
theorem c3_counterexample_mass_scaled_threshold :
    (resolve_impacts stdConfig Vec3i.zero c3_counter_body).collision = none ∧
    ((impactsOf Vec3i.zero c3_counter_body).scale c3_counter_body.mass).magSq
      > (1/1000) ^ 2 := by
  norm_num [resolve_impacts, impactsOf, velocityAfterContacts, sqrtGtQ, c3_counter_body,
    baseBody, Vec3i.zero, Vec3.scale, Vec3.magSq, stdConfig]

/-- C3 (amended): full characterisation of the contact-impulse step.  On
each axis with a new contact the impact component is the negated velocity,
and velocity is zeroed on every resting axis; `body.collision` is set to
`J = impact * mass` exactly when the *impact* magnitude (before the mass
scaling) exceeds `0.001`; the bounce impulse `J * restitution` is applied
exactly when additionally `restitution > 0` and the *impact* magnitude
exceeds `config.min_bounce_impulse` (magnitude comparisons are stated on
squares via `sqrtGtQ`, exact for the real lengths). -/
theorem c3_contact_impulse_step (config : WorldConfig) (old : Vec3i) (b : RigidBody) :
    (resolve_impacts config old b).velocity = velocityAfterContacts b ∧
    ((impactsOf old b).magSq > (1/1000) ^ 2 →
      (resolve_impacts config old b).collision = some ((impactsOf old b).scale b.mass)) ∧
    (¬ (impactsOf old b).magSq > (1/1000) ^ 2 →
      (resolve_impacts config old b).collision = b.collision) ∧
    (((impactsOf old b).magSq > (1/1000) ^ 2 ∧ b.restitution > 0 ∧
        sqrtGtQ (impactsOf old b).magSq config.min_bounce_impulse = true) →
      (resolve_impacts config old b).impulses =
        b.impulses.add (((impactsOf old b).scale b.mass).scale b.restitution)) ∧
    (¬ ((impactsOf old b).magSq > (1/1000) ^ 2 ∧ b.restitution > 0 ∧
        sqrtGtQ (impactsOf old b).magSq config.min_bounce_impulse = true) →
      (resolve_impacts config old b).impulses = b.impulses) := by
  have hmag : sqrtGtQ (impactsOf old b).magSq (1/1000) = true ↔
      (impactsOf old b).magSq > (1/1000) ^ 2 := by
    simp [sqrtGtQ]
  unfold resolve_impacts
  simp only []
  refine ⟨?_, ?_, ?_, ?_, ?_⟩
  · repeat' split
    all_goals rfl
  · intro h
    rw [if_pos (hmag.mpr h)]
    split
    · rfl
    · rfl
  · intro h
    rw [if_neg (fun hc => h (hmag.mp hc))]
  · intro ⟨h1, h2, h3⟩
    rw [if_pos (hmag.mpr h1)]
    rw [if_pos ⟨h2, h3⟩]
    rfl
  · intro h
    by_cases h1 : (impactsOf old b).magSq > (1/1000) ^ 2
    · rw [if_pos (hmag.mpr h1)]
      split
      · rename_i hc
        exact absurd ⟨h1, hc.1, hc.2⟩ h
      · rfl
    · rw [if_neg (fun hc => h1 (hmag.mp hc))]

/-- A body for the C3 witness: mass 1, new x contact, x velocity -1. -/
def c3_witness_body : RigidBody :=
  { baseBody with velocity := ⟨-1, 0, 0⟩, resting := ⟨1, 0, 0⟩ }

/-- C3 witness: with unit mass and a unit impact, the collision is
recorded as `J = (1, 0, 0)` and no bounce fires (restitution 0), so the
impulses are untouched. -/
theorem c3_witness_unit_mass_contact :
    (impactsOf Vec3i.zero c3_witness_body).magSq > (1/1000) ^ 2 ∧
    (resolve_impacts stdConfig Vec3i.zero c3_witness_body).collision
      = some ((impactsOf Vec3i.zero c3_witness_body).scale c3_witness_body.mass) ∧
    (resolve_impacts stdConfig Vec3i.zero c3_witness_body).impulses
      = c3_witness_body.impulses := by
  have h1 : (impactsOf Vec3i.zero c3_witness_body).magSq > (1/1000) ^ 2 := by
    norm_num [impactsOf, c3_witness_body, baseBody, Vec3i.zero, Vec3.magSq]
  have h2 : ¬ ((impactsOf Vec3i.zero c3_witness_body).magSq > (1/1000) ^ 2 ∧
      c3_witness_body.restitution > 0 ∧
      sqrtGtQ (impactsOf Vec3i.zero c3_witness_body).magSq
        stdConfig.min_bounce_impulse = true) := by
    intro hc
    have : c3_witness_body.restitution > 0 := hc.2.1
    norm_num [c3_witness_body, baseBody] at this
  exact ⟨h1,
    (c3_contact_impulse_step stdConfig Vec3i.zero c3_witness_body).2.1 h1,
    (c3_contact_impulse_step stdConfig Vec3i.zero c3_witness_body).2.2.2.2 h2⟩

/-- C4 counterexample: `(d * repulsion).min(3.0)` clamps only from above.
With the external body displaced straight down by 1 and repulsion 1000,
the jitter path fires (random draws -10 and 5, inside `fastrand`'s
`-10..10` range) and the applied impulse is `(-10, -1000, 3)`: its y
component has magnitude 1000, far above the claimed bound 3. -/
theorem c4_counterexample_negative_component_exceeds_bound :
    repulsion_impulse sqrtWitness 1000 ⟨0, -1, 0⟩ ⟨0, 0, 0⟩ (-10) 5
      = some ⟨-10, -1000, 3⟩ ∧ |(-1000 : ℚ)| > 3 := by
  constructor
  · norm_num [repulsion_impulse, sqrtWitness, abs_of_nonneg, abs_of_nonpos]
  · norm_num

/-- C4 (amended): every axis component of an applied repulsion impulse is
at most `3.0` - `(d * repulsion).min(3.0)` is an upper clamp only, so
components are bounded above by 3 but can be arbitrarily negative. -/
theorem c4_repulsion_upper_clamp_only (sq : ℚ → ℚ) (repulsion : ℚ)
    (after pos : Vec3) (jx jz : ℤ) (j : Vec3)
    (h : repulsion_impulse sq repulsion after pos jx jz = some j) :
    j.x ≤ 3 ∧ j.y ≤ 3 ∧ j.z ≤ 3 := by
  unfold repulsion_impulse at h
  simp only [] at h
  repeat' split at h
  all_goals
    first
      | exact Option.noConfusion h
      | (rw [Option.some_inj] at h
         subst h
         exact ⟨min_le_right _ _, min_le_right _ _, min_le_right _ _⟩)

/-- C4 witness: a unit displacement along x with repulsion 1 yields the
impulse `(1, 0, 0)`, whose components are all at most 3. -/
theorem c4_witness_component_bound :
    repulsion_impulse sqrtWitness 1 ⟨3, 0, 0⟩ ⟨0, 0, 0⟩ 0 0 = some ⟨1, 0, 0⟩ ∧
    (⟨1, 0, 0⟩ : Vec3).x ≤ 3 ∧ (⟨1, 0, 0⟩ : Vec3).y ≤ 3 ∧ (⟨1, 0, 0⟩ : Vec3).z ≤ 3 := by
  have h : repulsion_impulse sqrtWitness 1 ⟨3, 0, 0⟩ ⟨0, 0, 0⟩ 0 0 = some ⟨1, 0, 0⟩ := by
    norm_num [repulsion_impulse, sqrtWitness, abs_of_nonneg, abs_of_nonpos]
  exact ⟨h, c4_repulsion_upper_clamp_only sqrtWitness 1 ⟨3, 0, 0⟩ ⟨0, 0, 0⟩ 0 0 ⟨1, 0, 0⟩ h⟩

/-- C5 counterexample: a builder with `chunk_size = 0` (and the default,
valid chunk bounds) builds successfully - `WorldConfigBuilder::build` has
no chunk-size validation, contradicting the claimed fail-fast. -/
theorem c5_counterexample_zero_chunk_size_builds :
    ({ WorldConfigBuilder.new with chunk_size := 0 } : WorldConfigBuilder).build.isSome
      = true ∧
    ({ WorldConfigBuilder.new with chunk_size := 0 } : WorldConfigBuilder).chunk_size = 0 := by
  constructor
  · norm_num [WorldConfigBuilder.build, WorldConfigBuilder.new]
  · rfl

/-- C5 (amended): `WorldConfigBuilder::build` fails fast (panics) exactly
when `max_chunk < min_chunk` on either axis; `chunk_size` is not
validated; on success the returned `WorldConfig` carries the builder's
fields verbatim. -/
theorem c5_build_checks_only_chunk_bounds (b : WorldConfigBuilder) :
    (b.build.isSome = true ↔
      ¬ (b.max_chunk.1 < b.min_chunk.1 ∨ b.max_chunk.2 < b.min_chunk.2)) ∧
    (∀ c : WorldConfig, b.build = some c →
      c = { max_clients := b.max_clients, interval := b.interval,
            chunk_size := b.chunk_size, max_height := b.max_height,
            max_light_level := b.max_light_level,
            max_chunk_per_tick := b.max_chunk_per_tick,
            max_updates_per_tick := b.max_updates_per_tick,
            max_response_per_tick := b.max_response_per_tick,
            preload_radius := b.preload_radius, seed := b.seed,
            min_chunk := b.min_chunk, max_chunk := b.max_chunk,
            air_drag := b.air_drag, fluid_drag := b.fluid_drag,
            fluid_density := b.fluid_density, gravity := b.gravity,
            min_bounce_impulse := b.min_bounce_impulse }) := by
  unfold WorldConfigBuilder.build
  constructor
  · split <;> simp_all
  · intro c hc
    split at hc
    · exact absurd hc (by simp)
    · rw [Option.some_inj] at hc
      exact hc.symm

/-- C5 witness: the default builder builds, and the resulting config is
the default config record (the builder's fields carried over). -/
theorem c5_witness_default_builder :
    WorldConfigBuilder.new.build.isSome = true ∧ stdConfig =
      { max_clients := WorldConfigBuilder.new.max_clients,
        interval := WorldConfigBuilder.new.interval,
        chunk_size := WorldConfigBuilder.new.chunk_size,
        max_height := WorldConfigBuilder.new.max_height,
        max_light_level := WorldConfigBuilder.new.max_light_level,
        max_chunk_per_tick := WorldConfigBuilder.new.max_chunk_per_tick,
        max_updates_per_tick := WorldConfigBuilder.new.max_updates_per_tick,
        max_response_per_tick := WorldConfigBuilder.new.max_response_per_tick,
        preload_radius := WorldConfigBuilder.new.preload_radius,
        seed := WorldConfigBuilder.new.seed,
        min_chunk := WorldConfigBuilder.new.min_chunk,
        max_chunk := WorldConfigBuilder.new.max_chunk,
        air_drag := WorldConfigBuilder.new.air_drag,
        fluid_drag := WorldConfigBuilder.new.fluid_drag,
        fluid_density := WorldConfigBuilder.new.fluid_density,
        gravity := WorldConfigBuilder.new.gravity,
        min_bounce_impulse := WorldConfigBuilder.new.min_bounce_impulse } := by
  constructor
  · exact (c5_build_checks_only_chunk_bounds WorldConfigBuilder.new).1.mpr
      (by norm_num [WorldConfigBuilder.new])
  · exact (c5_build_checks_only_chunk_bounds WorldConfigBuilder.new).2 stdConfig
      (by norm_num [WorldConfigBuilder.build, WorldConfigBuilder.new, stdConfig])

/-- C6: for any sweep implementation and any inputs, a call to
`iterate_body` with `dt ≈ 0` (in particular `dt = 0`) returns the body
exactly as it was - every field, including the collision and stepped flags
and the accumulators, is unchanged. -/
theorem c6_dt_zero_is_identity (sw : SweepFn) (sq : ℚ → ℚ) (space : GetVoxel)
    (registry : Registry) (config : WorldConfig) (b : RigidBody) (dt : ℚ)
    (h : approx_equals dt 0 = true) :
    iterate_body sw sq space registry config b dt = b := by
  unfold iterate_body
  rw [h]
  simp

/-- C6 witness: a body with nonzero accumulators, a stale collision record
and a set stepped flag is returned byte-equal by a `dt = 0` call. -/
theorem c6_witness_dt_zero :
    approx_equals 0 0 = true ∧
    iterate_body freeSweep sqrtWitness emptySpace airRegistry stdConfig
      { baseBody with
          forces := ⟨1, 2, 3⟩
          impulses := ⟨4, 5, 6⟩
          collision := some ⟨7, 7, 7⟩
          stepped := true } 0
      = { baseBody with
          forces := ⟨1, 2, 3⟩
          impulses := ⟨4, 5, 6⟩
          collision := some ⟨7, 7, 7⟩
          stepped := true } := by
  have h : approx_equals 0 0 = true := by
    norm_num [approx_equals, F32_EPSILON]
  exact ⟨h, c6_dt_zero_is_identity freeSweep sqrtWitness emptySpace airRegistry
    stdConfig _ 0 h⟩

/-- C7: for any body with `mass ≤ 0` and any `dt` that is not
approximately zero, `iterate_body` zeroes the velocity, forces and
impulses and returns with the AABB (the position) unchanged, for every
sweep implementation, terrain, registry and configuration. -/
theorem c7_static_body_zeroed (sw : SweepFn) (sq : ℚ → ℚ) (space : GetVoxel)
    (registry : Registry) (config : WorldConfig) (b : RigidBody) (dt : ℚ)
    (hdt : approx_equals dt 0 = false) (hm : b.mass ≤ 0) :
    (iterate_body sw sq space registry config b dt).velocity = Vec3.zero ∧
    (iterate_body sw sq space registry config b dt).forces = Vec3.zero ∧
    (iterate_body sw sq space registry config b dt).impulses = Vec3.zero ∧
    (iterate_body sw sq space registry config b dt).aabb = b.aabb := by
  unfold iterate_body
  rw [hdt]
  simp only [Bool.false_eq_true, if_false]
  rw [if_pos (show ({ b with collision := none, stepped := false } : RigidBody).mass ≤ 0
    from hm)]
  exact ⟨rfl, rfl, rfl, rfl⟩

/-- C7 witness: a zero-mass body with nonzero velocity and accumulators is
made static by a `dt = 0.1` call, its AABB untouched. -/
theorem c7_witness_static_body :
    approx_equals (1/10) 0 = false ∧
    ({ baseBody with
        mass := 0
        velocity := ⟨1, 2, 3⟩
        forces := ⟨4, 5, 6⟩
        impulses := ⟨7, 8, 9⟩ } : RigidBody).mass ≤ 0 ∧
    ((iterate_body freeSweep sqrtWitness emptySpace airRegistry stdConfig
        { baseBody with
            mass := 0
            velocity := ⟨1, 2, 3⟩
            forces := ⟨4, 5, 6⟩
            impulses := ⟨7, 8, 9⟩ } (1/10)).velocity = Vec3.zero ∧
      (iterate_body freeSweep sqrtWitness emptySpace airRegistry stdConfig
        { baseBody with
            mass := 0
            velocity := ⟨1, 2, 3⟩
            forces := ⟨4, 5, 6⟩
            impulses := ⟨7, 8, 9⟩ } (1/10)).forces = Vec3.zero ∧
      (iterate_body freeSweep sqrtWitness emptySpace airRegistry stdConfig
        { baseBody with
            mass := 0
            velocity := ⟨1, 2, 3⟩
            forces := ⟨4, 5, 6⟩
            impulses := ⟨7, 8, 9⟩ } (1/10)).impulses = Vec3.zero ∧
      (iterate_body freeSweep sqrtWitness emptySpace airRegistry stdConfig
        { baseBody with
            mass := 0
            velocity := ⟨1, 2, 3⟩
            forces := ⟨4, 5, 6⟩
            impulses := ⟨7, 8, 9⟩ } (1/10)).aabb
        = ({ baseBody with
            mass := 0
            velocity := ⟨1, 2, 3⟩
            forces := ⟨4, 5, 6⟩
            impulses := ⟨7, 8, 9⟩ } : RigidBody).aabb) := by
  have h1 : approx_equals (1/10) 0 = false := by
    norm_num [approx_equals, F32_EPSILON, abs_of_nonneg]
  have h2 : ({ baseBody with
      mass := 0
      velocity := ⟨1, 2, 3⟩
      forces := ⟨4, 5, 6⟩
      impulses := ⟨7, 8, 9⟩ } : RigidBody).mass ≤ 0 := by
    norm_num [baseBody]
  exact ⟨h1, h2, c7_static_body_zeroed freeSweep sqrtWitness emptySpace airRegistry
    stdConfig _ (1/10) h1 h2⟩

/-- C8 counterexample: with only the x axis blocked (`resting = (1,-1,0)`)
and `dx = (1, 0, 1)`, the displacement ratio `|dx.x / dx.z| = 1` lies
inside `[1/4, 4]`, so the claim says the step attempt is aborted; the
source's gate nevertheless proceeds (it aborts an only-x-blocked attempt
only when `ratio < 1/4`). -/
theorem c8_counterexample_ratio_one_proceeds :
    auto_step_gate ⟨1, -1, 0⟩ ⟨1, 0, 1⟩ = true ∧
    (⟨1, -1, 0⟩ : Vec3i).x ≠ 0 ∧ (⟨1, -1, 0⟩ : Vec3i).z = 0 ∧
    (1/4 : ℚ) ≤ |(1 : ℚ) / (1 : ℚ)| ∧ |(1 : ℚ) / (1 : ℚ)| ≤ 4 := by
  norm_num [auto_step_gate, ratioGtCutoff, ratioLtInvCutoff]

/-- C8 (amended): the "sufficiently into obstruction" gate passes exactly
as follows - both axes blocked: proceed; only x blocked: proceed iff
`|dx.z| ≤ 4 * |dx.x|`, i.e. abort only when the unblocked z displacement
dominates by more than the cutoff 4 (ratio < 1/4); only z blocked:
proceed iff `|dx.x| ≤ 4 * |dx.z|` (abort only when ratio > 4); neither
blocked: no attempt.  The claim's "ratio outside [1/4, 4]" requirement is
not what the code implements. -/
theorem c8_gate_characterisation (resting : Vec3i) (dx : Vec3) :
    auto_step_gate resting dx = true ↔
      ((resting.x ≠ 0 ∧ resting.z ≠ 0) ∨
       (resting.x ≠ 0 ∧ resting.z = 0 ∧ |dx.z| ≤ 4 * |dx.x|) ∨
       (resting.x = 0 ∧ resting.z ≠ 0 ∧ |dx.x| ≤ 4 * |dx.z|)) := by
  unfold auto_step_gate ratioGtCutoff ratioLtInvCutoff
  by_cases hx : resting.x = 0 <;> by_cases hz : resting.z = 0 <;>
    simp [hx, hz, not_lt, le_refl]

/-- A repulsion-pass view of a client entity that has a current chunk
(ready), a body and an interactor, with the external body displaced by
3 along x from the voxel body's position. -/
def c9_client_entity : RepulsionEntity where
  is_client := true
  has_current_chunk := true
  chunk_ready := true
  has_body := true
  has_interactor := true
  body := baseBody
  rapier_after := ⟨7/2, 0, 1/2⟩
  jx := 0
  jz := 0

/-- C9 counterexample: the repulsion pass joins current-chunk, body and
interactor storages with no client filter, so an entity flagged as a
client does receive a repulsion impulse - here `(1, 0, 0)` on a body whose
impulse accumulator was zero. -/
theorem c9_counterexample_client_receives_impulse :
    c9_client_entity.is_client = true ∧
    c9_client_entity.body.impulses = Vec3.zero ∧
    (repulsion_pass_body sqrtWitness 1 c9_client_entity).impulses = ⟨1, 0, 0⟩ := by
  refine ⟨rfl, rfl, ?_⟩
  norm_num [repulsion_pass_body, repulsion_impulse, RigidBody.get_position,
    RigidBody.apply_impulse, sqrtWitness, c9_client_entity, baseBody, F32_EPSILON,
    Vec3.add, Vec3.zero, abs_of_nonneg, abs_of_nonpos]

/-- C9 (amended): the soft repulsion pass is applied to every entity
having a current chunk, a body and an interactor with its chunk ready,
clients included - the pass never reads the client flag, so its effect on
the body is independent of it. -/
theorem c9_repulsion_ignores_client_flag (sq : ℚ → ℚ) (repulsion : ℚ)
    (e : RepulsionEntity) (c : Bool) :
    repulsion_pass_body sq repulsion { e with is_client := c } =
      repulsion_pass_body sq repulsion e := rfl

/-- C10: the external rigid-body engine never applies gravity or rotation
to interactor bodies - `Physics::new` sets the engine gravity to zero, and
every body built by `Physics::register` has `gravity_scale 0` and locked
rotations, with a y capsule collider of half-height `aabb.height() / 2`
and radius `min(width, depth) / 2`. -/
theorem c10_rapier_bodies_inert :
    PhysicsEngine.new.gravity = Vec3.zero ∧
    ∀ b : RigidBody,
      (register_body_desc b).1.gravity_scale = 0 ∧
      (register_body_desc b).1.rotations_locked = true ∧
      (register_body_desc b).2.half_height = b.aabb.height / 2 ∧
      (register_body_desc b).2.radius = min b.aabb.width b.aabb.depth / 2 := by
  refine ⟨rfl, fun b => ⟨rfl, rfl, rfl, ?_⟩⟩
  show min (b.aabb.width / 2) (b.aabb.depth / 2) = min b.aabb.width b.aabb.depth / 2
  rw [min_div_div_right (by norm_num : (0:ℚ) ≤ 2)]
